import Mathlib

/-!
# Verification of the backpack feature-gate evaluator and GraphQL schema

Shallow embedding of two source files:

* `backend/workers/feature-gates/src/FEATURES.ts` — the `FEATURE_GATES`
  evaluator, a pure function from a cohort list and an optional user id to a
  fixed object of boolean feature flags.  The TypeScript object literal is
  embedded as an ordered association list; JavaScript string truthiness
  (`Boolean(userId && ...)`) is modelled explicitly.
* `backend/native/backpack-api/src/schema.graphql` — the GraphQL schema
  document, embedded as concrete Lean data (type definitions with their
  fields, argument lists, directive applications, enums, inputs and the
  `cacheControl` directive definition), transcribed in document order.
-/

/-! ## Feature-gate evaluator (FEATURES.ts) -/

/-- JavaScript truthiness of a string: every string is truthy except `""`.
Used to model `userId && ...` where `userId : string | undefined`. -/
def jsStringTruthy (s : String) : Bool :=
  s ≠ ""

/-- Embedding of `FEATURE_GATES` from `FEATURES.ts`.  The TypeScript source
destructures `{ dropzoneUsers, userId }` and returns the object literal

`{ STRIPE_ENABLED: true, PRIMARY_PUBKEY_ENABLED: true, SWAP_FEES_ENABLED:
false, DROPZONE_ENABLED: Boolean(userId && dropzoneUsers.includes(userId)),
STICKER_ENABLED: true, BARTER_ENABLED: false }`

embedded here as an ordered association list of key/value pairs.  An
`undefined` user id is `none`; `Boolean(userId && xs.includes(userId))` is
false when `userId` is `undefined` or `""` (both falsy), and otherwise is the
membership test. -/
def FEATURE_GATES (dropzoneUsers : List String) (userId : Option String) :
    List (String × Bool) :=
  [ ("STRIPE_ENABLED", true),
    ("PRIMARY_PUBKEY_ENABLED", true),
    ("SWAP_FEES_ENABLED", false),
    ("DROPZONE_ENABLED",
      match userId with
      | none => false
      | some u => jsStringTruthy u && dropzoneUsers.contains u),
    ("STICKER_ENABLED", true),
    ("BARTER_ENABLED", false) ]

/-- The known feature universe: the keys of the object literal returned by
`FEATURE_GATES` (the keys of `FEATURE_GATES_MAP`). -/
def featureUniverse : List String :=
  [ "STRIPE_ENABLED", "PRIMARY_PUBKEY_ENABLED", "SWAP_FEES_ENABLED",
    "DROPZONE_ENABLED", "STICKER_ENABLED", "BARTER_ENABLED" ]

/-- Look up one flag in an evaluator result. -/
def getFlag (flags : List (String × Bool)) (feature : String) : Option Bool :=
  List.lookup feature flags

example : getFlag (FEATURE_GATES ["u1", "u2"] (some "u1")) "DROPZONE_ENABLED"
    = some true := by decide

example : getFlag (FEATURE_GATES ["u1", "u2"] (some "u3")) "DROPZONE_ENABLED"
    = some false := by decide

example : getFlag (FEATURE_GATES ["u1"] none) "DROPZONE_ENABLED"
    = some false := by decide

/-! ## GraphQL schema document (schema.graphql) -/

namespace Gql

/-- A GraphQL type reference: a named type, a list type, or a non-null
wrapper (the `!` suffix). -/
inductive TypeRef where
  | named : String → TypeRef
  | listOf : TypeRef → TypeRef
  | nonNull : TypeRef → TypeRef
deriving DecidableEq, Repr

/-- A literal value appearing in a directive argument. -/
inductive Value where
  | int : Int → Value
  | str : String → Value
  | bool : Bool → Value
  | enum : String → Value
deriving DecidableEq, Repr

/-- An applied directive such as `@cacheControl(maxAge: 600)`. -/
structure DirectiveUse where
  name : String
  args : List (String × Value)
deriving DecidableEq, Repr

/-- An argument declared on a field, e.g. `chainId: ChainID!`. -/
structure ArgDef where
  name : String
  type : TypeRef
deriving DecidableEq, Repr

/-- A field of an object or interface type. -/
structure Field where
  name : String
  args : List ArgDef
  type : TypeRef
  directives : List DirectiveUse
deriving DecidableEq, Repr

/-- An object or interface type definition: its name, the interfaces it
implements, and its fields. -/
structure ObjectType where
  name : String
  interfaces : List String
  fields : List Field
deriving DecidableEq, Repr

/-- An enum type definition. -/
structure EnumType where
  name : String
  values : List String
deriving DecidableEq, Repr

/-- An input object type definition. -/
structure InputType where
  name : String
  fields : List ArgDef
deriving DecidableEq, Repr

/-- A directive definition such as `directive @cacheControl(...) on ...`. -/
structure DirectiveDef where
  name : String
  args : List ArgDef
  locations : List String
deriving DecidableEq, Repr

/-- A whole schema document. -/
structure Document where
  queryType : String
  mutationType : String
  scalars : List String
  directives : List DirectiveDef
  objects : List ObjectType
  interfaces : List ObjectType
  enums : List EnumType
  inputs : List InputType
deriving DecidableEq, Repr

/-- Shorthand for a field with no arguments and no directives. -/
def plainField (n : String) (t : TypeRef) : Field :=
  ⟨n, [], t, []⟩

end Gql

namespace Backpack

open Gql

/-- `T!`: a non-null named type. -/
def nnNamed (s : String) : TypeRef :=
  .nonNull (.named s)

/-- `[T!]!`: a non-null list of non-null named elements. -/
def nnListNN (s : String) : TypeRef :=
  .nonNull (.listOf (.nonNull (.named s)))

/-- `[T!]`: a nullable list of non-null named elements. -/
def listNN (s : String) : TypeRef :=
  .listOf (.nonNull (.named s))

/-- `directive @cacheControl(maxAge: Int, scope: CacheControlScope,
inheritMaxAge: Boolean) on FIELD_DEFINITION | OBJECT | INTERFACE | UNION`. -/
def cacheControl : DirectiveDef :=
  ⟨"cacheControl",
   [⟨"maxAge", .named "Int"⟩, ⟨"scope", .named "CacheControlScope"⟩,
    ⟨"inheritMaxAge", .named "Boolean"⟩],
   ["FIELD_DEFINITION", "OBJECT", "INTERFACE", "UNION"]⟩

/-- `type Mutation` from the schema document. -/
def Mutation : ObjectType :=
  ⟨"Mutation", [],
    [ ⟨"authenticate",
        [⟨"chainId", nnNamed "ChainID"⟩, ⟨"message", nnNamed "String"⟩,
         ⟨"publicKey", nnNamed "String"⟩, ⟨"signature", nnNamed "String"⟩],
        nnNamed "String", []⟩,
      plainField "deauthenticate" (nnNamed "String"),
      ⟨"importPublicKey",
        [⟨"chainId", nnNamed "ChainID"⟩, ⟨"address", nnNamed "String"⟩,
         ⟨"signature", nnNamed "String"⟩],
        .named "Boolean", []⟩,
      ⟨"sendFriendRequest",
        [⟨"otherUserId", nnNamed "String"⟩, ⟨"accept", nnNamed "Boolean"⟩],
        .named "Boolean", []⟩ ]⟩

/-- `type Query` from the schema document. -/
def Query : ObjectType :=
  ⟨"Query", [],
    [ ⟨"tokenList",
        [⟨"chainId", nnNamed "ChainID"⟩,
         ⟨"filters", .named "TokenListEntryFiltersInput"⟩],
        .nonNull (.listOf (.named "TokenListEntry")),
        [⟨"cacheControl", [("maxAge", .int 600)]⟩]⟩,
      ⟨"user", [], .named "User",
        [⟨"cacheControl", [("maxAge", .int 60), ("scope", .enum "PRIVATE")]⟩]⟩,
      ⟨"wallet",
        [⟨"chainId", nnNamed "ChainID"⟩, ⟨"address", nnNamed "String"⟩],
        .named "Wallet",
        [⟨"deprecated",
          [("reason",
            .str "Should use the user entrypoint for authentication identities.")]⟩,
         ⟨"cacheControl", [("maxAge", .int 60)]⟩]⟩ ]⟩

/-- `enum CacheControlScope`. -/
def CacheControlScope : EnumType :=
  ⟨"CacheControlScope", ["PUBLIC", "PRIVATE"]⟩

/-- `enum ChainID`. -/
def ChainID : EnumType :=
  ⟨"ChainID", ["ETHEREUM", "SOLANA"]⟩

/-- `enum FriendRequestType`. -/
def FriendRequestType : EnumType :=
  ⟨"FriendRequestType", ["RECEIVED", "SENT"]⟩

/-- `enum SortDirection`. -/
def SortDirection : EnumType :=
  ⟨"SortDirection", ["ASC", "DESC"]⟩

/-- `input BalanceFiltersInput`. -/
def BalanceFiltersInput : InputType :=
  ⟨"BalanceFiltersInput", [⟨"marketListedTokensOnly", .named "Boolean"⟩]⟩

/-- `input NftFiltersInput`. -/
def NftFiltersInput : InputType :=
  ⟨"NftFiltersInput", [⟨"addresses", listNN "String"⟩]⟩

/-- `input NotificationFiltersInput`. -/
def NotificationFiltersInput : InputType :=
  ⟨"NotificationFiltersInput",
   [⟨"limit", .named "Int"⟩, ⟨"sortDirection", .named "SortDirection"⟩,
    ⟨"unreadOnly", .named "Boolean"⟩]⟩

/-- `input TokenListEntryFiltersInput`. -/
def TokenListEntryFiltersInput : InputType :=
  ⟨"TokenListEntryFiltersInput",
   [⟨"addresses", listNN "String"⟩, ⟨"name", .named "String"⟩,
    ⟨"symbols", listNN "String"⟩]⟩

/-- `input TransactionFiltersInput`. -/
def TransactionFiltersInput : InputType :=
  ⟨"TransactionFiltersInput",
   [⟨"after", .named "String"⟩, ⟨"before", .named "String"⟩,
    ⟨"token", .named "String"⟩]⟩

/-- `input WalletFiltersInput`. -/
def WalletFiltersInput : InputType :=
  ⟨"WalletFiltersInput",
   [⟨"chainId", .named "ChainID"⟩, ⟨"primaryOnly", .named "Boolean"⟩,
    ⟨"pubkeys", listNN "String"⟩]⟩

/-- `interface Node` with its single `id: ID!` field. -/
def Node : ObjectType :=
  ⟨"Node", [], [plainField "id" (nnNamed "ID")]⟩

/-- `type PageInfo`. -/
def PageInfo : ObjectType :=
  ⟨"PageInfo", [],
    [ plainField "hasNextPage" (nnNamed "Boolean"),
      plainField "hasPreviousPage" (nnNamed "Boolean"),
      plainField "startCursor" (.named "String"),
      plainField "endCursor" (.named "String") ]⟩

/-- `type Balances implements Node`. -/
def Balances : ObjectType :=
  ⟨"Balances", ["Node"],
    [ plainField "id" (nnNamed "ID"),
      plainField "aggregate" (nnNamed "BalanceAggregate"),
      ⟨"tokens", [], .named "TokenBalanceConnection",
        [⟨"cacheControl", [("inheritMaxAge", .bool true)]⟩]⟩ ]⟩

/-- `type BalanceAggregate implements Node`. -/
def BalanceAggregate : ObjectType :=
  ⟨"BalanceAggregate", ["Node"],
    [ plainField "id" (nnNamed "ID"),
      plainField "percentChange" (nnNamed "Float"),
      plainField "value" (nnNamed "Float"),
      plainField "valueChange" (nnNamed "Float") ]⟩

/-- `type Collection implements Node`. -/
def Collection : ObjectType :=
  ⟨"Collection", ["Node"],
    [ plainField "id" (nnNamed "ID"),
      plainField "address" (nnNamed "String"),
      plainField "image" (.named "String"),
      plainField "name" (.named "String"),
      plainField "verified" (nnNamed "Boolean") ]⟩

/-- `type Friend implements Node`. -/
def Friend : ObjectType :=
  ⟨"Friend", ["Node"],
    [ plainField "id" (nnNamed "ID"),
      plainField "avatar" (nnNamed "String"),
      plainField "username" (nnNamed "String") ]⟩

/-- `type FriendRequest implements Node`. -/
def FriendRequest : ObjectType :=
  ⟨"FriendRequest", ["Node"],
    [ plainField "id" (nnNamed "ID"),
      plainField "type" (nnNamed "FriendRequestType"),
      plainField "userId" (nnNamed "String") ]⟩

/-- `type Friendship`. -/
def Friendship : ObjectType :=
  ⟨"Friendship", [],
    [ ⟨"friends", [], listNN "Friend",
        [⟨"cacheControl", [("maxAge", .int 60), ("scope", .enum "PRIVATE")]⟩]⟩,
      ⟨"requests", [], listNN "FriendRequest",
        [⟨"cacheControl", [("maxAge", .int 60), ("scope", .enum "PRIVATE")]⟩]⟩ ]⟩

/-- `type Listing implements Node`. -/
def Listing : ObjectType :=
  ⟨"Listing", ["Node"],
    [ plainField "id" (nnNamed "ID"),
      plainField "amount" (nnNamed "String"),
      plainField "source" (nnNamed "String"),
      plainField "url" (nnNamed "String") ]⟩

/-- `type MarketData implements Node`. -/
def MarketData : ObjectType :=
  ⟨"MarketData", ["Node"],
    [ plainField "id" (nnNamed "ID"),
      plainField "lastUpdatedAt" (nnNamed "String"),
      plainField "percentChange" (nnNamed "Float"),
      plainField "price" (nnNamed "Float"),
      plainField "sparkline" (nnListNN "Float"),
      plainField "usdChange" (nnNamed "Float"),
      plainField "value" (nnNamed "Float"),
      plainField "valueChange" (nnNamed "Float") ]⟩

/-- `type Nft implements Node`. -/
def Nft : ObjectType :=
  ⟨"Nft", ["Node"],
    [ plainField "id" (nnNamed "ID"),
      plainField "address" (nnNamed "String"),
      ⟨"attributes", [], listNN "NftAttribute",
        [⟨"cacheControl", [("inheritMaxAge", .bool true)]⟩]⟩,
      ⟨"collection", [], .named "Collection",
        [⟨"cacheControl", [("inheritMaxAge", .bool true)]⟩]⟩,
      plainField "compressed" (nnNamed "Boolean"),
      plainField "description" (.named "String"),
      plainField "image" (.named "String"),
      ⟨"listing", [], .named "Listing",
        [⟨"cacheControl", [("maxAge", .int 60)]⟩]⟩,
      plainField "metadataUri" (.named "String"),
      plainField "name" (.named "String"),
      plainField "owner" (nnNamed "String"),
      plainField "token" (nnNamed "String") ]⟩

/-- `type NftAttribute`. -/
def NftAttribute : ObjectType :=
  ⟨"NftAttribute", [],
    [ plainField "trait" (nnNamed "String"),
      plainField "value" (nnNamed "String") ]⟩

/-- `type NftConnection`. -/
def NftConnection : ObjectType :=
  ⟨"NftConnection", [],
    [ plainField "edges" (nnListNN "NftEdge"),
      plainField "pageInfo" (nnNamed "PageInfo") ]⟩

/-- `type NftEdge`. -/
def NftEdge : ObjectType :=
  ⟨"NftEdge", [],
    [ plainField "cursor" (nnNamed "String"),
      plainField "node" (nnNamed "Nft") ]⟩

/-- `type Notification implements Node`. -/
def Notification : ObjectType :=
  ⟨"Notification", ["Node"],
    [ plainField "id" (nnNamed "ID"),
      ⟨"app", [], .named "NotificationApplicationData",
        [⟨"cacheControl", [("maxAge", .int 180)]⟩]⟩,
      plainField "body" (nnNamed "JSONObject"),
      plainField "source" (nnNamed "String"),
      plainField "timestamp" (nnNamed "String"),
      plainField "title" (nnNamed "String"),
      plainField "viewed" (nnNamed "Boolean") ]⟩

/-- `type NotificationApplicationData implements Node`. -/
def NotificationApplicationData : ObjectType :=
  ⟨"NotificationApplicationData", ["Node"],
    [ plainField "id" (nnNamed "ID"),
      plainField "image" (nnNamed "String"),
      plainField "name" (nnNamed "String") ]⟩

/-- `type NotificationConnection`. -/
def NotificationConnection : ObjectType :=
  ⟨"NotificationConnection", [],
    [ plainField "lastReadId" (.named "Int"),
      plainField "edges" (nnListNN "NotificationEdge"),
      plainField "pageInfo" (nnNamed "PageInfo") ]⟩

/-- `type NotificationEdge`. -/
def NotificationEdge : ObjectType :=
  ⟨"NotificationEdge", [],
    [ plainField "cursor" (nnNamed "String"),
      plainField "node" (nnNamed "Notification") ]⟩

/-- `type TokenBalance implements Node`. -/
def TokenBalance : ObjectType :=
  ⟨"TokenBalance", ["Node"],
    [ plainField "id" (nnNamed "ID"),
      plainField "address" (nnNamed "String"),
      plainField "amount" (nnNamed "String"),
      plainField "decimals" (nnNamed "Int"),
      plainField "displayAmount" (nnNamed "String"),
      ⟨"marketData", [], .named "MarketData",
        [⟨"cacheControl", [("maxAge", .int 180)]⟩]⟩,
      plainField "token" (nnNamed "String"),
      plainField "tokenListEntry" (.named "TokenListEntry") ]⟩

/-- `type TokenBalanceConnection`. -/
def TokenBalanceConnection : ObjectType :=
  ⟨"TokenBalanceConnection", [],
    [ plainField "edges" (nnListNN "TokenBalanceEdge"),
      plainField "pageInfo" (nnNamed "PageInfo") ]⟩

/-- `type TokenBalanceEdge`. -/
def TokenBalanceEdge : ObjectType :=
  ⟨"TokenBalanceEdge", [],
    [ plainField "cursor" (nnNamed "String"),
      plainField "node" (nnNamed "TokenBalance") ]⟩

/-- `type TokenListEntry implements Node`. -/
def TokenListEntry : ObjectType :=
  ⟨"TokenListEntry", ["Node"],
    [ plainField "id" (nnNamed "ID"),
      plainField "address" (nnNamed "String"),
      plainField "coingeckoId" (.named "String"),
      plainField "logo" (.named "String"),
      plainField "name" (nnNamed "String"),
      plainField "symbol" (nnNamed "String") ]⟩

/-- `type Transaction implements Node`. -/
def Transaction : ObjectType :=
  ⟨"Transaction", ["Node"],
    [ plainField "id" (nnNamed "ID"),
      plainField "description" (.named "String"),
      plainField "block" (nnNamed "Float"),
      plainField "error" (.named "String"),
      plainField "fee" (.named "String"),
      plainField "feePayer" (.named "String"),
      plainField "hash" (nnNamed "String"),
      plainField "nfts" (.listOf (.named "String")),
      plainField "raw" (nnNamed "JSONObject"),
      plainField "source" (.named "String"),
      plainField "timestamp" (nnNamed "String"),
      plainField "type" (nnNamed "String") ]⟩

/-- `type TransactionConnection`. -/
def TransactionConnection : ObjectType :=
  ⟨"TransactionConnection", [],
    [ plainField "edges" (nnListNN "TransactionEdge"),
      plainField "pageInfo" (nnNamed "PageInfo") ]⟩

/-- `type TransactionEdge`. -/
def TransactionEdge : ObjectType :=
  ⟨"TransactionEdge", [],
    [ plainField "cursor" (nnNamed "String"),
      plainField "node" (nnNamed "Transaction") ]⟩

/-- `type User implements Node`. -/
def User : ObjectType :=
  ⟨"User", ["Node"],
    [ plainField "id" (nnNamed "ID"),
      plainField "avatar" (nnNamed "String"),
      plainField "createdAt" (nnNamed "String"),
      ⟨"friendship", [], .named "Friendship",
        [⟨"cacheControl", [("inheritMaxAge", .bool true)]⟩]⟩,
      ⟨"notifications", [⟨"filters", .named "NotificationFiltersInput"⟩],
        .named "NotificationConnection",
        [⟨"cacheControl", [("maxAge", .int 60), ("scope", .enum "PRIVATE")]⟩]⟩,
      plainField "userId" (nnNamed "String"),
      plainField "username" (nnNamed "String"),
      ⟨"wallet", [⟨"address", nnNamed "String"⟩], .named "Wallet", []⟩,
      ⟨"wallets", [⟨"filters", .named "WalletFiltersInput"⟩],
        .named "WalletConnection",
        [⟨"cacheControl", [("maxAge", .int 60)]⟩]⟩ ]⟩

/-- `type Wallet implements Node`. -/
def Wallet : ObjectType :=
  ⟨"Wallet", ["Node"],
    [ plainField "id" (nnNamed "ID"),
      plainField "address" (nnNamed "String"),
      plainField "chainId" (nnNamed "ChainID"),
      plainField "createdAt" (nnNamed "String"),
      ⟨"balances", [⟨"filters", .named "BalanceFiltersInput"⟩],
        .named "Balances",
        [⟨"cacheControl", [("maxAge", .int 60)]⟩]⟩,
      plainField "isPrimary" (nnNamed "Boolean"),
      ⟨"nfts", [⟨"filters", .named "NftFiltersInput"⟩], .named "NftConnection",
        [⟨"cacheControl", [("maxAge", .int 60)]⟩]⟩,
      ⟨"transactions", [⟨"filters", .named "TransactionFiltersInput"⟩],
        .named "TransactionConnection",
        [⟨"cacheControl", [("maxAge", .int 30)]⟩]⟩ ]⟩

/-- `type WalletConnection`. -/
def WalletConnection : ObjectType :=
  ⟨"WalletConnection", [],
    [ plainField "edges" (nnListNN "WalletEdge"),
      plainField "pageInfo" (nnNamed "PageInfo") ]⟩

/-- `type WalletEdge`. -/
def WalletEdge : ObjectType :=
  ⟨"WalletEdge", [],
    [ plainField "cursor" (nnNamed "String"),
      plainField "node" (nnNamed "Wallet") ]⟩

/-- The whole `schema.graphql` document: the schema block maps `query` to
`Query` and `mutation` to `Mutation`; the scalar `JSONObject`; the
`cacheControl` directive; all object, interface, enum and input type
definitions in document order. -/
def schemaDocument : Document :=
  ⟨"Query", "Mutation", ["JSONObject"], [cacheControl],
   [ Mutation, Query, PageInfo, Balances, BalanceAggregate, Collection,
     Friend, FriendRequest, Friendship, Listing, MarketData, Nft,
     NftAttribute, NftConnection, NftEdge, Notification,
     NotificationApplicationData, NotificationConnection, NotificationEdge,
     TokenBalance, TokenBalanceConnection, TokenBalanceEdge, TokenListEntry,
     Transaction, TransactionConnection, TransactionEdge, User, Wallet,
     WalletConnection, WalletEdge ],
   [Node],
   [CacheControlScope, ChainID, FriendRequestType, SortDirection],
   [ BalanceFiltersInput, NftFiltersInput, NotificationFiltersInput,
     TokenListEntryFiltersInput, TransactionFiltersInput,
     WalletFiltersInput ]⟩

end Backpack

/-! ## Theorems about the feature-gate evaluator -/

/-- The DROPZONE_ENABLED entry of the evaluator output, in closed form. -/
theorem getFlag_dropzone (dropzoneUsers : List String) (userId : Option String) :
    getFlag (FEATURE_GATES dropzoneUsers userId) "DROPZONE_ENABLED" =
      some (match userId with
            | none => false
            | some u => jsStringTruthy u && dropzoneUsers.contains u) := rfl

/-- C1 counterexample: at `userId = some ""` and cohort `[""]`, the user id is
defined and is a member of the cohort list, yet `DROPZONE_ENABLED` is false
(JavaScript treats `""` as falsy), so the claimed iff fails at this input. -/
theorem dropzone_defined_member_iff_refuted :
    ¬ (getFlag (FEATURE_GATES [""] (some "")) "DROPZONE_ENABLED" = some true ↔
        ((some "" : Option String).isSome = true ∧ "" ∈ [""])) := by
  decide

/-- C1 (amended): the evaluator returns `DROPZONE_ENABLED = true` iff `userId`
is defined, non-empty, and a member of the cohort list; in particular the
evaluation at `userId = "u1"` with cohort `["u1","u2"]` gives true, at
`userId = "u3"` with cohort `["u1","u2"]` gives false, and at an undefined
`userId` with cohort `["u1"]` gives false. -/
theorem dropzone_enabled_iff_truthy_member (dropzoneUsers : List String)
    (userId : Option String) :
    (getFlag (FEATURE_GATES dropzoneUsers userId) "DROPZONE_ENABLED" = some true ↔
      ∃ u, userId = some u ∧ u ≠ "" ∧ u ∈ dropzoneUsers) ∧
    getFlag (FEATURE_GATES ["u1", "u2"] (some "u1")) "DROPZONE_ENABLED" = some true ∧
    getFlag (FEATURE_GATES ["u1", "u2"] (some "u3")) "DROPZONE_ENABLED" = some false ∧
    getFlag (FEATURE_GATES ["u1"] none) "DROPZONE_ENABLED" = some false := by
  refine ⟨?_, by decide, by decide, by decide⟩
  rw [getFlag_dropzone]
  cases userId with
  | none => simp
  | some u =>
      simp [jsStringTruthy, List.contains]

/-- C2: the evaluator output is total over the known feature universe — its
keys, in order, are exactly the six known feature names, which are pairwise
distinct, so exactly one boolean entry is present for each feature with no
missing keys. -/
theorem feature_gates_total_universe (dropzoneUsers : List String)
    (userId : Option String) :
    (FEATURE_GATES dropzoneUsers userId).map Prod.fst = featureUniverse ∧
    featureUniverse.Nodup :=
  ⟨rfl, by decide⟩

/-- C3: the five flags other than DROPZONE_ENABLED are constants: for every
user id (defined or undefined) and every cohort list, STRIPE_ENABLED = true,
PRIMARY_PUBKEY_ENABLED = true, SWAP_FEES_ENABLED = false, STICKER_ENABLED =
true and BARTER_ENABLED = false. -/
theorem feature_gates_static_flags (dropzoneUsers : List String)
    (userId : Option String) :
    getFlag (FEATURE_GATES dropzoneUsers userId) "STRIPE_ENABLED" = some true ∧
    getFlag (FEATURE_GATES dropzoneUsers userId) "PRIMARY_PUBKEY_ENABLED" = some true ∧
    getFlag (FEATURE_GATES dropzoneUsers userId) "SWAP_FEES_ENABLED" = some false ∧
    getFlag (FEATURE_GATES dropzoneUsers userId) "STICKER_ENABLED" = some true ∧
    getFlag (FEATURE_GATES dropzoneUsers userId) "BARTER_ENABLED" = some false :=
  ⟨rfl, rfl, rfl, rfl, rfl⟩

/-- C4: the evaluator is a pure deterministic function of its two arguments:
two invocations with equal cohort lists and equal user ids return equal
flag sets. -/
theorem feature_gates_deterministic (dz1 dz2 : List String)
    (uid1 uid2 : Option String) (hdz : dz1 = dz2) (huid : uid1 = uid2) :
    FEATURE_GATES dz1 uid1 = FEATURE_GATES dz2 uid2 := by
  rw [hdz, huid]

/-- Witness for C4 at a concrete input. -/
theorem feature_gates_deterministic_witness :
    FEATURE_GATES ["u1"] (some "u1") = FEATURE_GATES ["u1"] (some "u1") :=
  feature_gates_deterministic ["u1"] ["u1"] (some "u1") (some "u1") rfl rfl

/-- C9: when `userId` is the empty string, DROPZONE_ENABLED is false for every
cohort list — even one containing the empty string — because the gate tests
JavaScript string truthiness, not mere definedness. -/
theorem dropzone_empty_string_false (dropzoneUsers : List String) :
    getFlag (FEATURE_GATES dropzoneUsers (some "")) "DROPZONE_ENABLED" = some false :=
  rfl

/-! ## Theorems about the GraphQL schema document -/

/-- C5: every object type declared with `implements Node` exposes a field
named `id` of type `ID!`, the shape required by the `Node` interface; and
the `Node` interface itself declares exactly that field. -/
theorem node_implementors_expose_id :
    ∀ t ∈ Backpack.schemaDocument.objects, "Node" ∈ t.interfaces →
      ∃ f ∈ t.fields, f.name = "id" ∧
        f.type = Gql.TypeRef.nonNull (Gql.TypeRef.named "ID") := by
  decide

/-- Witness for C5 at the `User` type. -/
theorem node_implementors_expose_id_witness :
    ∃ f ∈ Backpack.User.fields, f.name = "id" ∧
      f.type = Gql.TypeRef.nonNull (Gql.TypeRef.named "ID") :=
  node_implementors_expose_id Backpack.User (by decide) (by decide)

/-- The uniform Relay connection shape: the connection type has non-null
`edges` of non-null edge elements and a non-null `pageInfo`, and the edge
type has `cursor: String!` and a non-null `node` of the paired domain
type. -/
abbrev connectionShape (c e : Gql.ObjectType) (edgeName nodeName : String) : Prop :=
  (∃ f ∈ c.fields, f.name = "edges" ∧ f.type = Backpack.nnListNN edgeName) ∧
  (∃ f ∈ c.fields, f.name = "pageInfo" ∧ f.type = Backpack.nnNamed "PageInfo") ∧
  (∃ f ∈ e.fields, f.name = "cursor" ∧ f.type = Backpack.nnNamed "String") ∧
  (∃ f ∈ e.fields, f.name = "node" ∧ f.type = Backpack.nnNamed nodeName)

/-- C6: each of the five Connection types exposes `edges: [*Edge!]!` and
`pageInfo: PageInfo!`, and each corresponding Edge type exposes
`cursor: String!` and a non-null `node` of the paired domain type. -/
theorem connections_expose_edges_pageInfo :
    connectionShape Backpack.TokenBalanceConnection Backpack.TokenBalanceEdge
      "TokenBalanceEdge" "TokenBalance" ∧
    connectionShape Backpack.NftConnection Backpack.NftEdge "NftEdge" "Nft" ∧
    connectionShape Backpack.TransactionConnection Backpack.TransactionEdge
      "TransactionEdge" "Transaction" ∧
    connectionShape Backpack.NotificationConnection Backpack.NotificationEdge
      "NotificationEdge" "Notification" ∧
    connectionShape Backpack.WalletConnection Backpack.WalletEdge
      "WalletEdge" "Wallet" := by
  decide

/-- C7: the document's Query type has exactly the entry points tokenList,
user, and a wallet field taking an address argument marked `@deprecated`;
the Mutation type has exactly authenticate, deauthenticate, importPublicKey
and sendFriendRequest; and the `cacheControl` directive is declared with
arguments maxAge, scope and inheritMaxAge, applicable to field definitions,
objects, interfaces and unions. -/
theorem schema_surface_exact :
    Backpack.Query ∈ Backpack.schemaDocument.objects ∧
    Backpack.schemaDocument.queryType = "Query" ∧
    Backpack.Query.fields.map Gql.Field.name = ["tokenList", "user", "wallet"] ∧
    (∃ f ∈ Backpack.Query.fields, f.name = "wallet" ∧
      "address" ∈ f.args.map Gql.ArgDef.name ∧
      ∃ d ∈ f.directives, d.name = "deprecated") ∧
    Backpack.Mutation ∈ Backpack.schemaDocument.objects ∧
    Backpack.schemaDocument.mutationType = "Mutation" ∧
    Backpack.Mutation.fields.map Gql.Field.name =
      ["authenticate", "deauthenticate", "importPublicKey", "sendFriendRequest"] ∧
    (∃ d ∈ Backpack.schemaDocument.directives, d.name = "cacheControl" ∧
      d.args.map Gql.ArgDef.name = ["maxAge", "scope", "inheritMaxAge"] ∧
      d.locations = ["FIELD_DEFINITION", "OBJECT", "INTERFACE", "UNION"]) := by
  decide

/-- C8: `ChainID` is a closed enumeration with exactly the variants ETHEREUM
and SOLANA, and the `Wallet` type carries exactly one `ChainID` through the
single non-null field `chainId: ChainID!`. -/
theorem chainID_closed_enum_wallet :
    Backpack.ChainID ∈ Backpack.schemaDocument.enums ∧
    Backpack.ChainID.values = ["ETHEREUM", "SOLANA"] ∧
    (Backpack.Wallet.fields.filter (fun f => f.name == "chainId")).map
        Gql.Field.type = [Backpack.nnNamed "ChainID"] := by
  decide

/-- C10: NotificationConnection is the only Connection type with an extra
field beyond edges and pageInfo — a nullable `lastReadId: Int` — while the
other four Connection types expose exactly edges and pageInfo. -/
theorem notificationConnection_extra_field :
    Backpack.NotificationConnection.fields.map Gql.Field.name =
      ["lastReadId", "edges", "pageInfo"] ∧
    (∃ f ∈ Backpack.NotificationConnection.fields, f.name = "lastReadId" ∧
      f.type = Gql.TypeRef.named "Int") ∧
    Backpack.TokenBalanceConnection.fields.map Gql.Field.name = ["edges", "pageInfo"] ∧
    Backpack.NftConnection.fields.map Gql.Field.name = ["edges", "pageInfo"] ∧
    Backpack.TransactionConnection.fields.map Gql.Field.name = ["edges", "pageInfo"] ∧
    Backpack.WalletConnection.fields.map Gql.Field.name = ["edges", "pageInfo"] := by
  decide
